import Mathlib

/-!
Verification development for the CougarsRPi control stack.

The repository contains two control-node variants:
* `pid_control.cpp` (node `pid_control`, class `PIDControl`);
* `coug_controls.cpp` (node `coug_controls`, class `CougControls`).

Both own PID axis controllers (class `PID`, from `pid.h`/`pid.cpp`, which is
not part of the available source tree and is therefore modelled from the
specification), cache the latest desired/actual scalar inputs received on
their subscriptions, and on each fixed-period timer tick — once an `init`
message has been received — compute fin and thruster commands and publish a
single `UCommand` message.

Floating point scalars of the source are embedded as exact rationals (`ℚ`);
integer-typed values as `ℤ`.  C++ float-to-int conversion (truncation toward
zero) is `truncQ`.
-/

/-- Truncation toward zero, the C++ float-to-int conversion. -/
def truncQ (q : ℚ) : Int := if 0 ≤ q then ⌊q⌋ else ⌈q⌉

/-- Rounding to the nearest integer, ties away from zero (the rounding policy
the specification fixes for PID outputs). -/
def roundAway (q : ℚ) : Int := if 0 ≤ q then ⌊q + 1/2⌋ else ⌈q - 1/2⌉

/-- Clamp a rational into the interval `[lo, hi]`. -/
def clampQ (lo hi q : ℚ) : ℚ := min (max q lo) hi

lemma clampQ_mem (lo hi q : ℚ) (h : lo ≤ hi) :
    lo ≤ clampQ lo hi q ∧ clampQ lo hi q ≤ hi := by
  constructor
  · exact le_min (le_max_right q lo) h
  · exact min_le_right _ _

lemma roundAway_bounds (m M : Int) (q : ℚ) (h1 : (m : ℚ) ≤ q)
    (h2 : q ≤ (M : ℚ)) : m ≤ roundAway q ∧ roundAway q ≤ M := by
  unfold roundAway
  split
  · constructor
    · rw [Int.le_floor]
      linarith
    · rw [Int.floor_le_iff]
      linarith
  · constructor
    · have h4 : ((m - 1 : Int) : ℚ) < q - 1/2 := by push_cast; linarith
      have h5 : (m - 1 : Int) < ⌈q - 1/2⌉ := Int.lt_ceil.mpr h4
      omega
    · rw [Int.ceil_le]
      linarith

lemma roundAway_clampQ_bounds (m M : Int) (q : ℚ) (h : m ≤ M) :
    m ≤ roundAway (clampQ (m : ℚ) (M : ℚ) q) ∧
      roundAway (clampQ (m : ℚ) (M : ℚ) q) ≤ M := by
  have hq : (m : ℚ) ≤ (M : ℚ) := by exact_mod_cast h
  obtain ⟨h1, h2⟩ := clampQ_mem (m : ℚ) (M : ℚ) q hq
  exact roundAway_bounds m M _ h1 h2

/-- Modelled from the spec: the `PID` class of `pid.h`/`pid.cpp` is not in the
available source tree; its data is taken from spec §3 (Axis Controller):
gains `kp ki kd`, integer output bounds and bias, positive cycle period, and
internal running state (integral accumulator and previous error), zero at
creation. -/
structure PID where
  kp : ℚ
  ki : ℚ
  kd : ℚ
  min_output : Int
  max_output : Int
  period : ℚ
  integral : ℚ
  prev_error : ℚ
  pidBias : Int


/-- Modelled from the spec: `PID::calibrate` (spec §4.1, §7) sets the tunable
parameters, resets the transient state to zero, and rejects a non-positive
period or `min_output > max_output` as a configuration error (here: `none`). -/
def PID.calibrate (kp ki kd : ℚ) (minOut maxOut : Int) (period : Int)
    (bias : Int) : Option PID :=
  if period ≤ 0 ∨ maxOut < minOut then none
  else some { kp := kp, ki := ki, kd := kd, min_output := minOut,
              max_output := maxOut, period := (period : ℚ), integral := 0,
              prev_error := 0, pidBias := bias }

/-- Modelled from the spec: `PID::compute` (spec §4.1, steps 1–6): error,
proportional term, integral accumulation with anti-windup (the accumulator
may not grow further in the direction causing the excess when the unclamped
output would leave the bounds), derivative term against the previous error,
raw output `P + I + D + bias`, clamped to `[min_output, max_output]` and then
rounded to the nearest integer, ties away from zero. -/
def PID.compute (p : PID) (desired actual : ℚ) : PID × Int :=
  let error := desired - actual
  let propTerm := p.kp * error
  let derivTerm := p.kd * (error - p.prev_error) / p.period
  let cand := p.integral + error * p.period
  let rawCand := propTerm + p.ki * cand + derivTerm + (p.pidBias : ℚ)
  let integral2 :=
    if (p.max_output : ℚ) < rawCand ∧ 0 < error * p.period then p.integral
    else if rawCand < (p.min_output : ℚ) ∧ error * p.period < 0 then p.integral
    else cand
  let raw := propTerm + p.ki * integral2 + derivTerm + (p.pidBias : ℚ)
  let out := roundAway (clampQ (p.min_output : ℚ) (p.max_output : ℚ) raw)
  ({ p with integral := integral2, prev_error := error }, out)

/-- C1: for every calibration with `min_output ≤ max_output` and positive
period, in every internal state and for every pair of inputs, `PID::compute`
returns an integer in `[min_output, max_output]`. -/
theorem C1_compute_output_bounded (p : PID) (desired actual : ℚ)
    (hper : 0 < p.period) (h : p.min_output ≤ p.max_output) :
    p.min_output ≤ (p.compute desired actual).2 ∧
      (p.compute desired actual).2 ≤ p.max_output := by
  unfold PID.compute
  dsimp only
  exact roundAway_clampQ_bounds p.min_output p.max_output _ h

/-- C1 witness: a concrete calibrated controller evaluated at concrete
inputs lands in its output interval. -/
theorem C1_compute_output_bounded_witness :
    (0 : ℚ) < (80 : ℚ) ∧ (-100 : Int) ≤ 100 ∧
      (-100 : Int) ≤
        (PID.compute ⟨2, 0, 0, -100, 100, 80, 0, 0, 0⟩ 5 3).2 ∧
      (PID.compute ⟨2, 0, 0, -100, 100, 80, 0, 0, 0⟩ 5 3).2 ≤ 100 := by
  refine ⟨by norm_num, by decide, ?_⟩
  exact C1_compute_output_bounded ⟨2, 0, 0, -100, 100, 80, 0, 0, 0⟩ 5 3
    (by norm_num) (by decide)

/-- The `UCommand` message: three fin positions and a thruster level, as the
exact values the nodes assign to the message fields. -/
structure UCommand where
  fin0 : ℚ
  fin1 : ℚ
  fin2 : ℚ
  thruster : ℚ


/-- Fields of `frost_interfaces/msg/ModemRec` read by `PIDControl`:
`msg_id` (uint8 command identification code) and `attitude_yaw`
(int16, tenths of a degree). -/
structure ModemRec where
  msg_id : Nat
  attitude_yaw : Int


/-- Fields of `seatrac_interfaces/msg/ModemStatus` read by `CougControls`:
`attitude_yaw` (int16, tenths of a degree). -/
structure ModemStatus where
  attitude_yaw : Int


namespace PIDControl

/-- ROS parameters of the `pid_control` node, declared in the `PIDControl`
constructor. -/
structure Config where
  trim_ratio : ℚ
  pid_timer_period : Int
  depth_kp : ℚ
  depth_ki : ℚ
  depth_kd : ℚ
  depth_min_output : Int
  depth_max_output : Int
  depth_bias : Int
  heading_kp : ℚ
  heading_ki : ℚ
  heading_kd : ℚ
  heading_min_output : Int
  heading_max_output : Int
  heading_bias : Int
  speed_kp : ℚ
  speed_ki : ℚ
  speed_kd : ℚ
  speed_min_output : Int
  speed_max_output : Int
  speed_bias : Int
  top_fin_offset : ℚ
  right_fin_offset : ℚ
  left_fin_offset : ℚ


/-- Mutable member state of the `PIDControl` node. -/
structure State where
  init_flag : Bool
  myHeadingPID : PID
  myDepthPID : PID
  myVelocityPID : PID
  desired_depth : ℚ
  desired_heading : ℚ
  desired_speed : ℚ
  yaw : ℚ
  x_velocity : ℚ
  depth : ℚ


/-- Events the `pid_control` node reacts to: one per subscription callback,
plus the wall-timer tick. -/
inductive Event where
  | initMsg
  | desiredDepthMsg (d : ℚ)
  | desiredHeadingMsg (h : ℚ)
  | desiredSpeedMsg (v : ℚ)
  | depthDataMsg (z : ℚ)
  | modemRecMsg (m : ModemRec)
  | tick


/-- `PIDControl::init_callback`: sets the init flag to true. -/
def init_callback (s : State) : State := { s with init_flag := true }

/-- `PIDControl::desired_depth_callback`. -/
def desired_depth_callback (s : State) (d : ℚ) : State :=
  { s with desired_depth := d }

/-- `PIDControl::desired_heading_callback`. -/
def desired_heading_callback (s : State) (h : ℚ) : State :=
  { s with desired_heading := h }

/-- `PIDControl::desired_speed_callback`. -/
def desired_speed_callback (s : State) (v : ℚ) : State :=
  { s with desired_speed := v }

/-- `PIDControl::depth_callback`: stores `pose.pose.position.z`. -/
def depth_callback (s : State) (z : ℚ) : State := { s with depth := z }

/-- `PIDControl::yaw_callback`: stores `attitude_yaw` only when
`msg_id == 0x10` (a status message). -/
def yaw_callback (s : State) (m : ModemRec) : State :=
  if m.msg_id = 0x10 then { s with yaw := (m.attitude_yaw : ℚ) } else s

/-- `PIDControl::timer_callback`: when the init flag is set, computes the
depth and heading PID outputs, truncates the desired speed to an int
(`int velocity_level = this->desired_speed`), fills the fin and thruster
fields and publishes; otherwise does nothing. -/
def timer_callback (cfg : Config) (s : State) : State × Option UCommand :=
  if s.init_flag then
    let depthR := s.myDepthPID.compute s.desired_depth (-s.depth)
    let headingR := s.myHeadingPID.compute s.desired_heading s.yaw
    let velocity_level : Int := truncQ s.desired_speed
    let message : UCommand :=
      { fin0 := (headingR.2 : ℚ) + cfg.trim_ratio * (velocity_level : ℚ) +
          cfg.top_fin_offset
        fin1 := (depthR.2 : ℚ) + cfg.trim_ratio * (velocity_level : ℚ) +
          cfg.right_fin_offset
        fin2 := (depthR.2 : ℚ) + cfg.trim_ratio * (velocity_level : ℚ) +
          cfg.left_fin_offset
        thruster := (velocity_level : ℚ) }
    ({ s with myDepthPID := depthR.1, myHeadingPID := headingR.1 },
      some message)
  else (s, none)

/-- One event step of the `pid_control` node: subscription callbacks publish
nothing; the timer tick may publish one command. -/
def step (cfg : Config) (s : State) : Event → State × Option UCommand
  | .initMsg => (init_callback s, none)
  | .desiredDepthMsg d => (desired_depth_callback s d, none)
  | .desiredHeadingMsg h => (desired_heading_callback s h, none)
  | .desiredSpeedMsg v => (desired_speed_callback s v, none)
  | .depthDataMsg z => (depth_callback s z, none)
  | .modemRecMsg m => (yaw_callback s m, none)
  | .tick => timer_callback cfg s

/-- The `PIDControl` constructor: calibrates the three PID controllers with
the declared parameters (all sharing `pid_timer_period`) and starts with the
init flag false and all cached inputs zero.  Calibration rejection (spec §7)
aborts construction. -/
def construct (cfg : Config) : Option State :=
  match PID.calibrate cfg.depth_kp cfg.depth_ki cfg.depth_kd
          cfg.depth_min_output cfg.depth_max_output cfg.pid_timer_period
          cfg.depth_bias,
        PID.calibrate cfg.heading_kp cfg.heading_ki cfg.heading_kd
          cfg.heading_min_output cfg.heading_max_output cfg.pid_timer_period
          cfg.heading_bias,
        PID.calibrate cfg.speed_kp cfg.speed_ki cfg.speed_kd
          cfg.speed_min_output cfg.speed_max_output cfg.pid_timer_period
          cfg.speed_bias with
  | some dp, some hp, some vp =>
      some { init_flag := false, myHeadingPID := hp, myDepthPID := dp,
             myVelocityPID := vp, desired_depth := 0, desired_heading := 0,
             desired_speed := 0, yaw := 0, x_velocity := 0, depth := 0 }
  | _, _, _ => none

/-- Commands published while processing a list of events from state `s`. -/
def runFrom (cfg : Config) (s : State) : List Event → List UCommand
  | [] => []
  | e :: es =>
      let r := step cfg s e
      r.2.toList ++ runFrom cfg r.1 es

/-- Commands published by a whole run of the node: nothing if construction
is rejected, otherwise the commands of the event trace. -/
def run (cfg : Config) (events : List Event) : List UCommand :=
  match construct cfg with
  | none => []
  | some s0 => runFrom cfg s0 events

end PIDControl

namespace CougControls

/-- ROS parameters of the `coug_controls` node, declared in the
`CougControls` constructor. -/
structure Config where
  timer_period : Int
  depth_kp : ℚ
  depth_ki : ℚ
  depth_kd : ℚ
  depth_min_output : Int
  depth_max_output : Int
  depth_bias : Int
  heading_kp : ℚ
  heading_ki : ℚ
  heading_kd : ℚ
  heading_min_output : Int
  heading_max_output : Int
  heading_bias : Int
  magnetic_declination : ℚ


/-- Mutable member state of the `CougControls` node. -/
structure State where
  init_flag : Bool
  myHeadingPID : PID
  myDepthPID : PID
  magnetic_declination : ℚ
  desired_depth : ℚ
  desired_heading : ℚ
  desired_speed : ℚ
  actual_depth : ℚ
  actual_heading : ℚ


/-- Events the `coug_controls` node reacts to. -/
inductive Event where
  | initMsg
  | desiredDepthMsg (d : ℚ)
  | desiredHeadingMsg (h : ℚ)
  | desiredSpeedMsg (v : ℚ)
  | depthDataMsg (z : ℚ)
  | modemStatusMsg (m : ModemStatus)
  | tick


/-- `CougControls::init_callback`: sets the init flag to true. -/
def init_callback (s : State) : State := { s with init_flag := true }

/-- `CougControls::desired_depth_callback`. -/
def desired_depth_callback (s : State) (d : ℚ) : State :=
  { s with desired_depth := d }

/-- `CougControls::desired_heading_callback`. -/
def desired_heading_callback (s : State) (h : ℚ) : State :=
  { s with desired_heading := h }

/-- `CougControls::desired_speed_callback`. -/
def desired_speed_callback (s : State) (v : ℚ) : State :=
  { s with desired_speed := v }

/-- `CougControls::actual_depth_callback`: stores `pose.pose.position.z`. -/
def actual_depth_callback (s : State) (z : ℚ) : State :=
  { s with actual_depth := z }

/-- `CougControls::actual_heading_callback`: stores
`0.1 * attitude_yaw + magnetic_declination`. -/
def actual_heading_callback (s : State) (m : ModemStatus) : State :=
  { s with actual_heading :=
      (1/10 : ℚ) * (m.attitude_yaw : ℚ) + s.magnetic_declination }

/-- `CougControls::timer_callback`: when the init flag is set, computes the
depth and heading PID outputs, fills `fin[0] = heading_pos`,
`fin[1] = -1 * depth_pos`, `fin[2] = depth_pos`,
`thruster = desired_speed`, and publishes; otherwise does nothing. -/
def timer_callback (s : State) : State × Option UCommand :=
  if s.init_flag then
    let depthR := s.myDepthPID.compute s.desired_depth (-s.actual_depth)
    let headingR := s.myHeadingPID.compute s.desired_heading s.actual_heading
    let message : UCommand :=
      { fin0 := (headingR.2 : ℚ)
        fin1 := ((-1 * depthR.2 : Int) : ℚ)
        fin2 := (depthR.2 : ℚ)
        thruster := s.desired_speed }
    ({ s with myDepthPID := depthR.1, myHeadingPID := headingR.1 },
      some message)
  else (s, none)

/-- One event step of the `coug_controls` node. -/
def step (s : State) : Event → State × Option UCommand
  | .initMsg => (init_callback s, none)
  | .desiredDepthMsg d => (desired_depth_callback s d, none)
  | .desiredHeadingMsg h => (desired_heading_callback s h, none)
  | .desiredSpeedMsg v => (desired_speed_callback s v, none)
  | .depthDataMsg z => (actual_depth_callback s z, none)
  | .modemStatusMsg m => (actual_heading_callback s m, none)
  | .tick => timer_callback s

/-- The `CougControls` constructor: calibrates the two PID controllers (both
sharing `timer_period`), reads the magnetic declination parameter, and starts
with the init flag false and all cached inputs zero.  Calibration rejection
(spec §7) aborts construction. -/
def construct (cfg : Config) : Option State :=
  match PID.calibrate cfg.depth_kp cfg.depth_ki cfg.depth_kd
          cfg.depth_min_output cfg.depth_max_output cfg.timer_period
          cfg.depth_bias,
        PID.calibrate cfg.heading_kp cfg.heading_ki cfg.heading_kd
          cfg.heading_min_output cfg.heading_max_output cfg.timer_period
          cfg.heading_bias with
  | some dp, some hp =>
      some { init_flag := false, myHeadingPID := hp, myDepthPID := dp,
             magnetic_declination := cfg.magnetic_declination,
             desired_depth := 0, desired_heading := 0, desired_speed := 0,
             actual_depth := 0, actual_heading := 0 }
  | _, _ => none

/-- Commands published while processing a list of events from state `s`. -/
def runFrom (s : State) : List Event → List UCommand
  | [] => []
  | e :: es =>
      let r := step s e
      r.2.toList ++ runFrom r.1 es

/-- Commands published by a whole run of the node. -/
def run (cfg : Config) (events : List Event) : List UCommand :=
  match construct cfg with
  | none => []
  | some s0 => runFrom s0 events

end CougControls

/-! Concrete example instances used by witness theorems. -/

/-- A concrete calibrated depth/heading controller: `kp = 1`, other gains
zero, bounds `[-100, 100]`, period 80, zero bias, fresh transient state. -/
def pidEx : PID := ⟨1, 0, 0, -100, 100, 80, 0, 0, 0⟩

/-- A concrete `pid_control` configuration: zero trim and offsets, 80 ms
period, `kp = 1` on every axis with bounds `[-100, 100]`. -/
def pcfgEx : PIDControl.Config :=
  ⟨0, 80, 1, 0, 0, -100, 100, 0, 1, 0, 0, -100, 100, 0,
   1, 0, 0, -100, 100, 0, 0, 0, 0⟩

/-- A concrete `pid_control` state after `init`, with desired depth 10 and
all other cached inputs zero. -/
def pstEx : PIDControl.State := ⟨true, pidEx, pidEx, pidEx, 10, 0, 0, 0, 0, 0⟩

/-- A concrete `coug_controls` configuration: 80 ms period, `kp = 1` on both
axes with bounds `[-100, 100]`, declination 10.7. -/
def ccfgEx : CougControls.Config :=
  ⟨80, 1, 0, 0, -100, 100, 0, 1, 0, 0, -100, 100, 0, 107/10⟩

/-- A concrete `coug_controls` state after `init`, with desired depth 10 and
all other cached inputs zero. -/
def cstEx : CougControls.State := ⟨true, pidEx, pidEx, 107/10, 10, 0, 0, 0, 0⟩

/-- A misconfigured `pid_control` configuration: zero timer period. -/
def pcfgBad : PIDControl.Config :=
  ⟨0, 0, 1, 0, 0, -100, 100, 0, 1, 0, 0, -100, 100, 0,
   1, 0, 0, -100, 100, 0, 0, 0, 0⟩

/-- A misconfigured `coug_controls` configuration: zero timer period. -/
def ccfgBad : CougControls.Config :=
  ⟨0, 1, 0, 0, -100, 100, 0, 1, 0, 0, -100, 100, 0, 107/10⟩

/-- C10: `PIDControl::yaw_callback` updates the stored yaw exactly when the
`ModemRec` message has `msg_id = 0x10`; any other `msg_id` leaves the whole
node state unchanged, and no command is published either way. -/
theorem C10_yaw_msg_id_gate (cfg : PIDControl.Config) (s : PIDControl.State)
    (m : ModemRec) :
    (m.msg_id = 0x10 →
      PIDControl.step cfg s (.modemRecMsg m) =
        ({ s with yaw := (m.attitude_yaw : ℚ) }, none)) ∧
    (m.msg_id ≠ 0x10 →
      PIDControl.step cfg s (.modemRecMsg m) = (s, none)) := by
  constructor
  · intro h
    simp [PIDControl.step, PIDControl.yaw_callback, h]
  · intro h
    simp [PIDControl.step, PIDControl.yaw_callback, h]

/-- C10 witness: a status message (`msg_id = 0x10`) stores its yaw; the gate
hypothesis is discharged at the concrete message. -/
theorem C10_yaw_msg_id_gate_witness :
    (ModemRec.msg_id ⟨0x10, 137⟩ = 0x10) ∧
      PIDControl.step pcfgEx pstEx (.modemRecMsg ⟨0x10, 137⟩) =
        ({ pstEx with yaw := ((137 : Int) : ℚ) }, none) :=
  ⟨rfl, (C10_yaw_msg_id_gate pcfgEx pstEx ⟨0x10, 137⟩).1 rfl⟩

/-- C3: the initialization gate of both node variants starts false at
construction, is set by the `init` callback, and no event of the step
relation ever resets it: once true it stays true. -/
theorem C3_init_flag_irreversible :
    (∀ cfg s0, PIDControl.construct cfg = some s0 → s0.init_flag = false) ∧
    (∀ cfg s, ((PIDControl.step cfg s .initMsg).1).init_flag = true) ∧
    (∀ cfg s e, s.init_flag = true →
      ((PIDControl.step cfg s e).1).init_flag = true) ∧
    (∀ cfg s0, CougControls.construct cfg = some s0 → s0.init_flag = false) ∧
    (∀ s, ((CougControls.step s .initMsg).1).init_flag = true) ∧
    (∀ s e, s.init_flag = true →
      ((CougControls.step s e).1).init_flag = true) := by
  refine ⟨?_, ?_, ?_, ?_, ?_, ?_⟩
  · intro cfg s0 h
    unfold PIDControl.construct at h
    split at h
    · injection h with h2
      rw [← h2]
    · exact Option.noConfusion h
  · intro cfg s
    simp [PIDControl.step, PIDControl.init_callback]
  · intro cfg s e h
    cases e <;>
      simp [PIDControl.step, PIDControl.init_callback,
        PIDControl.desired_depth_callback, PIDControl.desired_heading_callback,
        PIDControl.desired_speed_callback, PIDControl.depth_callback,
        PIDControl.yaw_callback, PIDControl.timer_callback, h] <;>
      first
      | rfl
      | (split <;> simp [h])
  · intro cfg s0 h
    unfold CougControls.construct at h
    split at h
    · injection h with h2
      rw [← h2]
    · exact Option.noConfusion h
  · intro s
    simp [CougControls.step, CougControls.init_callback]
  · intro s e h
    cases e <;>
      simp [CougControls.step, CougControls.init_callback,
        CougControls.desired_depth_callback,
        CougControls.desired_heading_callback,
        CougControls.desired_speed_callback,
        CougControls.actual_depth_callback,
        CougControls.actual_heading_callback,
        CougControls.timer_callback, h]

/-- C3 witness: from the concrete post-`init` state, a timer tick leaves the
gate set. -/
theorem C3_init_flag_irreversible_witness :
    pstEx.init_flag = true ∧
      ((PIDControl.step pcfgEx pstEx .tick).1).init_flag = true :=
  ⟨rfl, C3_init_flag_irreversible.2.2.1 pcfgEx pstEx .tick rfl⟩

/-- C2: a timer tick before `init` publishes nothing and leaves the whole
node state (PID controllers included) untouched; a tick after `init`
publishes exactly one command, computed from the currently cached
desired/actual values, which are zero at construction.  Both node variants. -/
theorem C2_tick_gate :
    (∀ (cfg : PIDControl.Config) (s : PIDControl.State),
      s.init_flag = false → PIDControl.step cfg s .tick = (s, none)) ∧
    (∀ (cfg : PIDControl.Config) (s : PIDControl.State),
      s.init_flag = true → (PIDControl.step cfg s .tick).2 = some
        { fin0 := ((s.myHeadingPID.compute s.desired_heading s.yaw).2 : ℚ) +
            cfg.trim_ratio * ((truncQ s.desired_speed : Int) : ℚ) +
            cfg.top_fin_offset
          fin1 := ((s.myDepthPID.compute s.desired_depth (-s.depth)).2 : ℚ) +
            cfg.trim_ratio * ((truncQ s.desired_speed : Int) : ℚ) +
            cfg.right_fin_offset
          fin2 := ((s.myDepthPID.compute s.desired_depth (-s.depth)).2 : ℚ) +
            cfg.trim_ratio * ((truncQ s.desired_speed : Int) : ℚ) +
            cfg.left_fin_offset
          thruster := ((truncQ s.desired_speed : Int) : ℚ) }) ∧
    (∀ cfg s0, PIDControl.construct cfg = some s0 →
      s0.desired_depth = 0 ∧ s0.desired_heading = 0 ∧ s0.desired_speed = 0 ∧
        s0.yaw = 0 ∧ s0.depth = 0) ∧
    (∀ s : CougControls.State,
      s.init_flag = false → CougControls.step s .tick = (s, none)) ∧
    (∀ s : CougControls.State,
      s.init_flag = true → (CougControls.step s .tick).2 = some
        { fin0 := ((s.myHeadingPID.compute s.desired_heading
            s.actual_heading).2 : ℚ)
          fin1 := ((-1 * (s.myDepthPID.compute s.desired_depth
            (-s.actual_depth)).2 : Int) : ℚ)
          fin2 := ((s.myDepthPID.compute s.desired_depth
            (-s.actual_depth)).2 : ℚ)
          thruster := s.desired_speed }) ∧
    (∀ cfg s0, CougControls.construct cfg = some s0 →
      s0.desired_depth = 0 ∧ s0.desired_heading = 0 ∧ s0.desired_speed = 0 ∧
        s0.actual_depth = 0 ∧ s0.actual_heading = 0) := by
  refine ⟨?_, ?_, ?_, ?_, ?_, ?_⟩
  · intro cfg s h
    simp [PIDControl.step, PIDControl.timer_callback, h]
  · intro cfg s h
    simp [PIDControl.step, PIDControl.timer_callback, h]
  · intro cfg s0 h
    unfold PIDControl.construct at h
    split at h
    · injection h with h2
      rw [← h2]
      exact ⟨rfl, rfl, rfl, rfl, rfl⟩
    · exact Option.noConfusion h
  · intro s h
    simp [CougControls.step, CougControls.timer_callback, h]
  · intro s h
    simp [CougControls.step, CougControls.timer_callback, h]
  · intro cfg s0 h
    unfold CougControls.construct at h
    split at h
    · injection h with h2
      rw [← h2]
      exact ⟨rfl, rfl, rfl, rfl, rfl⟩
    · exact Option.noConfusion h

/-- C2 witness: in the concrete post-`init` state a tick publishes one
command; the same state with the gate cleared publishes nothing. -/
theorem C2_tick_gate_witness :
    ({ pstEx with init_flag := false }.init_flag = false ∧
      PIDControl.step pcfgEx { pstEx with init_flag := false } .tick =
        ({ pstEx with init_flag := false }, none)) ∧
    (pstEx.init_flag = true ∧ (PIDControl.step pcfgEx pstEx .tick).2 = some
      { fin0 := ((pstEx.myHeadingPID.compute pstEx.desired_heading
          pstEx.yaw).2 : ℚ) +
          pcfgEx.trim_ratio * ((truncQ pstEx.desired_speed : Int) : ℚ) +
          pcfgEx.top_fin_offset
        fin1 := ((pstEx.myDepthPID.compute pstEx.desired_depth
          (-pstEx.depth)).2 : ℚ) +
          pcfgEx.trim_ratio * ((truncQ pstEx.desired_speed : Int) : ℚ) +
          pcfgEx.right_fin_offset
        fin2 := ((pstEx.myDepthPID.compute pstEx.desired_depth
          (-pstEx.depth)).2 : ℚ) +
          pcfgEx.trim_ratio * ((truncQ pstEx.desired_speed : Int) : ℚ) +
          pcfgEx.left_fin_offset
        thruster := ((truncQ pstEx.desired_speed : Int) : ℚ) }) :=
  ⟨⟨rfl, C2_tick_gate.1 pcfgEx { pstEx with init_flag := false } rfl⟩,
   ⟨rfl, C2_tick_gate.2.1 pcfgEx pstEx rfl⟩⟩

/-- C5: `depth_data` messages store the received position unchanged, and on
every running tick the depth-controller `compute` method is invoked with
`actual = -depth` (the stored position with inverted sign), as witnessed by
the resulting depth-controller state.  Both node variants. -/
theorem C5_depth_sign_inversion :
    (∀ (cfg : PIDControl.Config) (s : PIDControl.State) (z : ℚ),
      PIDControl.step cfg s (.depthDataMsg z) = ({ s with depth := z }, none)) ∧
    (∀ (cfg : PIDControl.Config) (s : PIDControl.State), s.init_flag = true →
      ((PIDControl.step cfg s .tick).1).myDepthPID =
        (s.myDepthPID.compute s.desired_depth (-s.depth)).1) ∧
    (∀ (s : CougControls.State) (z : ℚ),
      CougControls.step s (.depthDataMsg z) =
        ({ s with actual_depth := z }, none)) ∧
    (∀ s : CougControls.State, s.init_flag = true →
      ((CougControls.step s .tick).1).myDepthPID =
        (s.myDepthPID.compute s.desired_depth (-s.actual_depth)).1) := by
  refine ⟨?_, ?_, ?_, ?_⟩
  · intro cfg s z
    simp [PIDControl.step, PIDControl.depth_callback]
  · intro cfg s h
    simp [PIDControl.step, PIDControl.timer_callback, h]
  · intro s z
    simp [CougControls.step, CougControls.actual_depth_callback]
  · intro s h
    simp [CougControls.step, CougControls.timer_callback, h]

/-- C5 witness: in the concrete post-`init` state the tick advances the depth
controller exactly as `compute` at `(desired_depth, -depth)` does. -/
theorem C5_depth_sign_inversion_witness :
    pstEx.init_flag = true ∧
      ((PIDControl.step pcfgEx pstEx .tick).1).myDepthPID =
        (pstEx.myDepthPID.compute pstEx.desired_depth (-pstEx.depth)).1 :=
  ⟨rfl, C5_depth_sign_inversion.2.1 pcfgEx pstEx rfl⟩

/-- C9: on every running tick the thruster field is the cached desired speed
passed through (truncated to int by `int velocity_level = desired_speed` in
`pid_control`; copied directly in `coug_controls`), and it does not depend on
any PID controller state. -/
theorem C9_thruster_pass_through :
    (∀ (cfg : PIDControl.Config) (s : PIDControl.State), s.init_flag = true →
      Option.map UCommand.thruster (PIDControl.step cfg s .tick).2 =
        some ((truncQ s.desired_speed : Int) : ℚ)) ∧
    (∀ (cfg : PIDControl.Config) (s : PIDControl.State) (q1 q2 q3 : PID),
      Option.map UCommand.thruster
          (PIDControl.step cfg
            { s with myHeadingPID := q1, myDepthPID := q2,
                     myVelocityPID := q3 } .tick).2 =
        Option.map UCommand.thruster (PIDControl.step cfg s .tick).2) ∧
    (∀ s : CougControls.State, s.init_flag = true →
      Option.map UCommand.thruster (CougControls.step s .tick).2 =
        some s.desired_speed) ∧
    (∀ (s : CougControls.State) (q1 q2 : PID),
      Option.map UCommand.thruster
          (CougControls.step
            { s with myHeadingPID := q1, myDepthPID := q2 } .tick).2 =
        Option.map UCommand.thruster (CougControls.step s .tick).2) := by
  refine ⟨?_, ?_, ?_, ?_⟩
  · intro cfg s h
    simp [PIDControl.step, PIDControl.timer_callback, h]
  · intro cfg s q1 q2 q3
    by_cases h : s.init_flag = true
    · simp [PIDControl.step, PIDControl.timer_callback, h]
    · rw [Bool.not_eq_true] at h
      simp [PIDControl.step, PIDControl.timer_callback, h]
  · intro s h
    simp [CougControls.step, CougControls.timer_callback, h]
  · intro s q1 q2
    by_cases h : s.init_flag = true
    · simp [CougControls.step, CougControls.timer_callback, h]
    · rw [Bool.not_eq_true] at h
      simp [CougControls.step, CougControls.timer_callback, h]

/-- C9 witness: in the concrete post-`init` state the emitted thruster level
is the truncated cached desired speed. -/
theorem C9_thruster_pass_through_witness :
    pstEx.init_flag = true ∧
      Option.map UCommand.thruster (PIDControl.step pcfgEx pstEx .tick).2 =
        some ((truncQ pstEx.desired_speed : Int) : ℚ) :=
  ⟨rfl, C9_thruster_pass_through.1 pcfgEx pstEx rfl⟩

/-- The fin-mixing expressions of `PIDControl::timer_callback` as a pure
function of the three axis signals: `(fin_top, fin_right, fin_left)`. -/
def mixFins (trim topOff rightOff leftOff : ℚ)
    (depth_output heading_output speed_value : ℚ) : ℚ × ℚ × ℚ :=
  (heading_output + trim * speed_value + topOff,
   depth_output + trim * speed_value + rightOff,
   depth_output + trim * speed_value + leftOff)

/-- C7: for fixed trim and offsets the fin values are an exact affine
function of `(depth_output, heading_output, speed_value)` — any affine
combination of two input triples is mapped to the same affine combination of
outputs, so in particular no clamping is applied — and on every running tick
the emitted fins are exactly `mixFins` of the three axis signals, a pure
function of them. -/
theorem C7_mixer_affine :
    (∀ (trim t r l a b d1 h1 v1 d2 h2 v2 : ℚ), a + b = 1 →
      mixFins trim t r l (a * d1 + b * d2) (a * h1 + b * h2)
          (a * v1 + b * v2) =
        (a * (mixFins trim t r l d1 h1 v1).1 +
           b * (mixFins trim t r l d2 h2 v2).1,
         a * (mixFins trim t r l d1 h1 v1).2.1 +
           b * (mixFins trim t r l d2 h2 v2).2.1,
         a * (mixFins trim t r l d1 h1 v1).2.2 +
           b * (mixFins trim t r l d2 h2 v2).2.2)) ∧
    (∀ (cfg : PIDControl.Config) (s : PIDControl.State), s.init_flag = true →
      Option.map (fun m => (m.fin0, m.fin1, m.fin2))
          (PIDControl.step cfg s .tick).2 =
        some (mixFins cfg.trim_ratio cfg.top_fin_offset cfg.right_fin_offset
          cfg.left_fin_offset
          ((s.myDepthPID.compute s.desired_depth (-s.depth)).2 : ℚ)
          ((s.myHeadingPID.compute s.desired_heading s.yaw).2 : ℚ)
          ((truncQ s.desired_speed : Int) : ℚ))) := by
  constructor
  · intro trim t r l a b d1 h1 v1 d2 h2 v2 hab
    have hb : b = 1 - a := by linarith
    subst hb
    simp only [mixFins, Prod.mk.injEq]
    refine ⟨by ring, by ring, by ring⟩
  · intro cfg s h
    simp [PIDControl.step, PIDControl.timer_callback, mixFins, h]

/-- C7 witness: the affine-combination identity and the tick link evaluated
at concrete inputs. -/
theorem C7_mixer_affine_witness :
    ((1 : ℚ) + (1 - 1) = 1 ∧
      mixFins 2 3 4 5 (1 * 6 + (1 - 1) * 9) (1 * 7 + (1 - 1) * 10)
          (1 * 8 + (1 - 1) * 11) =
        (1 * (mixFins 2 3 4 5 6 7 8).1 + (1 - 1) * (mixFins 2 3 4 5 9 10 11).1,
         1 * (mixFins 2 3 4 5 6 7 8).2.1 +
           (1 - 1) * (mixFins 2 3 4 5 9 10 11).2.1,
         1 * (mixFins 2 3 4 5 6 7 8).2.2 +
           (1 - 1) * (mixFins 2 3 4 5 9 10 11).2.2)) ∧
    (pstEx.init_flag = true ∧
      Option.map (fun m => (m.fin0, m.fin1, m.fin2))
          (PIDControl.step pcfgEx pstEx .tick).2 =
        some (mixFins pcfgEx.trim_ratio pcfgEx.top_fin_offset
          pcfgEx.right_fin_offset pcfgEx.left_fin_offset
          ((pstEx.myDepthPID.compute pstEx.desired_depth (-pstEx.depth)).2 : ℚ)
          ((pstEx.myHeadingPID.compute pstEx.desired_heading pstEx.yaw).2 : ℚ)
          ((truncQ pstEx.desired_speed : Int) : ℚ))) :=
  ⟨⟨by norm_num, C7_mixer_affine.1 2 3 4 5 1 (1 - 1) 6 7 8 9 10 11 (by norm_num)⟩,
   ⟨rfl, C7_mixer_affine.2 pcfgEx pstEx rfl⟩⟩

lemma calibrate_eq_none (kp ki kd : ℚ) (mn mx per b : Int)
    (h : per ≤ 0 ∨ mx < mn) :
    PID.calibrate kp ki kd mn mx per b = none := by
  unfold PID.calibrate
  rw [if_pos h]

/-- C8: a non-positive cycle period, or `min_output > max_output` on any
axis, makes calibration fail, node construction abort, and a whole run of
the process publish no command on `control_command`, whatever events occur.
Both node variants. -/
theorem C8_misconfig_no_commands (pcfg : PIDControl.Config)
    (ccfg : CougControls.Config)
    (hp : pcfg.pid_timer_period ≤ 0 ∨
      pcfg.depth_max_output < pcfg.depth_min_output ∨
      pcfg.heading_max_output < pcfg.heading_min_output ∨
      pcfg.speed_max_output < pcfg.speed_min_output)
    (hc : ccfg.timer_period ≤ 0 ∨
      ccfg.depth_max_output < ccfg.depth_min_output ∨
      ccfg.heading_max_output < ccfg.heading_min_output) :
    (∀ events, PIDControl.run pcfg events = []) ∧
    (∀ events, CougControls.run ccfg events = []) := by
  have hpc : PIDControl.construct pcfg = none := by
    rcases hp with h | h | h | h
    · have h1 := calibrate_eq_none pcfg.depth_kp pcfg.depth_ki pcfg.depth_kd
        pcfg.depth_min_output pcfg.depth_max_output pcfg.pid_timer_period
        pcfg.depth_bias (Or.inl h)
      have h2 := calibrate_eq_none pcfg.heading_kp pcfg.heading_ki
        pcfg.heading_kd pcfg.heading_min_output pcfg.heading_max_output
        pcfg.pid_timer_period pcfg.heading_bias (Or.inl h)
      have h3 := calibrate_eq_none pcfg.speed_kp pcfg.speed_ki pcfg.speed_kd
        pcfg.speed_min_output pcfg.speed_max_output pcfg.pid_timer_period
        pcfg.speed_bias (Or.inl h)
      simp [PIDControl.construct, h1, h2, h3]
    · have h1 := calibrate_eq_none pcfg.depth_kp pcfg.depth_ki pcfg.depth_kd
        pcfg.depth_min_output pcfg.depth_max_output pcfg.pid_timer_period
        pcfg.depth_bias (Or.inr h)
      cases hb : PID.calibrate pcfg.heading_kp pcfg.heading_ki pcfg.heading_kd
          pcfg.heading_min_output pcfg.heading_max_output
          pcfg.pid_timer_period pcfg.heading_bias <;>
        cases hcs : PID.calibrate pcfg.speed_kp pcfg.speed_ki pcfg.speed_kd
            pcfg.speed_min_output pcfg.speed_max_output pcfg.pid_timer_period
            pcfg.speed_bias <;>
          simp [PIDControl.construct, h1, hb, hcs]
    · have h2 := calibrate_eq_none pcfg.heading_kp pcfg.heading_ki
        pcfg.heading_kd pcfg.heading_min_output pcfg.heading_max_output
        pcfg.pid_timer_period pcfg.heading_bias (Or.inr h)
      cases ha : PID.calibrate pcfg.depth_kp pcfg.depth_ki pcfg.depth_kd
          pcfg.depth_min_output pcfg.depth_max_output pcfg.pid_timer_period
          pcfg.depth_bias <;>
        cases hcs : PID.calibrate pcfg.speed_kp pcfg.speed_ki pcfg.speed_kd
            pcfg.speed_min_output pcfg.speed_max_output pcfg.pid_timer_period
            pcfg.speed_bias <;>
          simp [PIDControl.construct, h2, ha, hcs]
    · have h3 := calibrate_eq_none pcfg.speed_kp pcfg.speed_ki pcfg.speed_kd
        pcfg.speed_min_output pcfg.speed_max_output pcfg.pid_timer_period
        pcfg.speed_bias (Or.inr h)
      cases ha : PID.calibrate pcfg.depth_kp pcfg.depth_ki pcfg.depth_kd
          pcfg.depth_min_output pcfg.depth_max_output pcfg.pid_timer_period
          pcfg.depth_bias <;>
        cases hb : PID.calibrate pcfg.heading_kp pcfg.heading_ki
            pcfg.heading_kd pcfg.heading_min_output pcfg.heading_max_output
            pcfg.pid_timer_period pcfg.heading_bias <;>
          simp [PIDControl.construct, h3, ha, hb]
  have hcc : CougControls.construct ccfg = none := by
    rcases hc with h | h | h
    · have h1 := calibrate_eq_none ccfg.depth_kp ccfg.depth_ki ccfg.depth_kd
        ccfg.depth_min_output ccfg.depth_max_output ccfg.timer_period
        ccfg.depth_bias (Or.inl h)
      have h2 := calibrate_eq_none ccfg.heading_kp ccfg.heading_ki
        ccfg.heading_kd ccfg.heading_min_output ccfg.heading_max_output
        ccfg.timer_period ccfg.heading_bias (Or.inl h)
      simp [CougControls.construct, h1, h2]
    · have h1 := calibrate_eq_none ccfg.depth_kp ccfg.depth_ki ccfg.depth_kd
        ccfg.depth_min_output ccfg.depth_max_output ccfg.timer_period
        ccfg.depth_bias (Or.inr h)
      cases hb : PID.calibrate ccfg.heading_kp ccfg.heading_ki ccfg.heading_kd
          ccfg.heading_min_output ccfg.heading_max_output ccfg.timer_period
          ccfg.heading_bias <;>
        simp [CougControls.construct, h1, hb]
    · have h2 := calibrate_eq_none ccfg.heading_kp ccfg.heading_ki
        ccfg.heading_kd ccfg.heading_min_output ccfg.heading_max_output
        ccfg.timer_period ccfg.heading_bias (Or.inr h)
      cases ha : PID.calibrate ccfg.depth_kp ccfg.depth_ki ccfg.depth_kd
          ccfg.depth_min_output ccfg.depth_max_output ccfg.timer_period
          ccfg.depth_bias <;>
        simp [CougControls.construct, h2, ha]
  constructor
  · intro events
    simp [PIDControl.run, hpc]
  · intro events
    simp [CougControls.run, hcc]

/-- C8 witness: the concrete zero-period configurations publish nothing on
any event trace; the misconfiguration hypotheses are discharged concretely. -/
theorem C8_misconfig_no_commands_witness :
    (pcfgBad.pid_timer_period ≤ 0 ∧ ccfgBad.timer_period ≤ 0) ∧
    ((∀ events, PIDControl.run pcfgBad events = []) ∧
     (∀ events, CougControls.run ccfgBad events = [])) :=
  ⟨⟨by decide, by decide⟩,
   C8_misconfig_no_commands pcfgBad ccfgBad (Or.inl (by decide))
     (Or.inl (by decide))⟩

/-- C4 counterexample: in the `pid_control` variant a running tick with
depth output 10 (zero trim and offsets) emits `fin1 = fin2 = 10`: both depth
fins carry the depth output with the same sign, so no pair of opposing fixed
signs `sign_r = -sign_l` can describe the emitted fin pair. -/
theorem C4_counterexample_same_sign :
    Option.map (fun m => (m.fin1, m.fin2))
        (PIDControl.step pcfgEx pstEx .tick).2 = some ((10 : ℚ), (10 : ℚ)) ∧
    ∀ sr sl : ℚ, sr = -sl → ¬((10 : ℚ) = sr * 10 ∧ (10 : ℚ) = sl * 10) := by
  constructor
  · norm_num [PIDControl.step, PIDControl.timer_callback, pstEx, pcfgEx,
      pidEx, PID.compute, truncQ, clampQ, roundAway, min_def, max_def]
  · intro sr sl h hc
    obtain ⟨h1, h2⟩ := hc
    linarith

/-- C4 amended: the fixed mixing law actually implemented: in `pid_control`,
`fin_top = heading_output + trim_ratio * speed + top_fin_offset` and both
depth fins carry `+depth_output + trim_ratio * speed + own offset` (the same
positive sign, not opposing signs); in `coug_controls`,
`fin_top = heading_output`, `fin_right = -depth_output`,
`fin_left = +depth_output` (opposing fixed signs) with no trim or offset
terms. -/
theorem C4_mixing_law (cfg : PIDControl.Config) (s : PIDControl.State)
    (c : CougControls.State) (hs : s.init_flag = true)
    (hc : c.init_flag = true) :
    (PIDControl.step cfg s .tick).2 = some
      { fin0 := ((s.myHeadingPID.compute s.desired_heading s.yaw).2 : ℚ) +
          cfg.trim_ratio * ((truncQ s.desired_speed : Int) : ℚ) +
          cfg.top_fin_offset
        fin1 := ((s.myDepthPID.compute s.desired_depth (-s.depth)).2 : ℚ) +
          cfg.trim_ratio * ((truncQ s.desired_speed : Int) : ℚ) +
          cfg.right_fin_offset
        fin2 := ((s.myDepthPID.compute s.desired_depth (-s.depth)).2 : ℚ) +
          cfg.trim_ratio * ((truncQ s.desired_speed : Int) : ℚ) +
          cfg.left_fin_offset
        thruster := ((truncQ s.desired_speed : Int) : ℚ) } ∧
    (CougControls.step c .tick).2 = some
      { fin0 := ((c.myHeadingPID.compute c.desired_heading
          c.actual_heading).2 : ℚ)
        fin1 := ((-1 * (c.myDepthPID.compute c.desired_depth
          (-c.actual_depth)).2 : Int) : ℚ)
        fin2 := ((c.myDepthPID.compute c.desired_depth
          (-c.actual_depth)).2 : ℚ)
        thruster := c.desired_speed } := by
  constructor
  · simp [PIDControl.step, PIDControl.timer_callback, hs]
  · simp [CougControls.step, CougControls.timer_callback, hc]

/-- C4 amended witness: the mixing law evaluated in the concrete post-`init`
states of both variants. -/
theorem C4_mixing_law_witness :
    (pstEx.init_flag = true ∧ cstEx.init_flag = true) ∧
    ((PIDControl.step pcfgEx pstEx .tick).2 = some
      { fin0 := ((pstEx.myHeadingPID.compute pstEx.desired_heading
          pstEx.yaw).2 : ℚ) +
          pcfgEx.trim_ratio * ((truncQ pstEx.desired_speed : Int) : ℚ) +
          pcfgEx.top_fin_offset
        fin1 := ((pstEx.myDepthPID.compute pstEx.desired_depth
          (-pstEx.depth)).2 : ℚ) +
          pcfgEx.trim_ratio * ((truncQ pstEx.desired_speed : Int) : ℚ) +
          pcfgEx.right_fin_offset
        fin2 := ((pstEx.myDepthPID.compute pstEx.desired_depth
          (-pstEx.depth)).2 : ℚ) +
          pcfgEx.trim_ratio * ((truncQ pstEx.desired_speed : Int) : ℚ) +
          pcfgEx.left_fin_offset
        thruster := ((truncQ pstEx.desired_speed : Int) : ℚ) } ∧
     (CougControls.step cstEx .tick).2 = some
      { fin0 := ((cstEx.myHeadingPID.compute cstEx.desired_heading
          cstEx.actual_heading).2 : ℚ)
        fin1 := ((-1 * (cstEx.myDepthPID.compute cstEx.desired_depth
          (-cstEx.actual_depth)).2 : Int) : ℚ)
        fin2 := ((cstEx.myDepthPID.compute cstEx.desired_depth
          (-cstEx.actual_depth)).2 : ℚ)
        thruster := cstEx.desired_speed }) :=
  ⟨⟨rfl, rfl⟩, C4_mixing_law pcfgEx pstEx cstEx rfl rfl⟩

/-- C6 counterexample: in the `pid_control` variant, yaw-status messages
with transmitted integers 100 and 0 leave stored yaw values 100 and 0: no
fixed declination `d` satisfies both `100 = 0.1 * 100 + d` and
`0 = 0.1 * 0 + d`, so the stored heading input is not one-tenth of the
transmitted integer plus a configured declination — it is the raw integer. -/
theorem C6_counterexample_unscaled_yaw :
    ((PIDControl.step pcfgEx pstEx (.modemRecMsg ⟨0x10, 100⟩)).1).yaw =
      100 ∧
    ((PIDControl.step pcfgEx pstEx (.modemRecMsg ⟨0x10, 0⟩)).1).yaw = 0 ∧
    ∀ d : ℚ,
      ¬(((PIDControl.step pcfgEx pstEx (.modemRecMsg ⟨0x10, 100⟩)).1).yaw =
          (1/10) * 100 + d ∧
        ((PIDControl.step pcfgEx pstEx (.modemRecMsg ⟨0x10, 0⟩)).1).yaw =
          (1/10) * 0 + d) := by
  have e1 : ((PIDControl.step pcfgEx pstEx (.modemRecMsg ⟨0x10, 100⟩)).1).yaw
      = 100 := by decide
  have e2 : ((PIDControl.step pcfgEx pstEx (.modemRecMsg ⟨0x10, 0⟩)).1).yaw
      = 0 := by decide
  refine ⟨e1, e2, ?_⟩
  intro d hc
  obtain ⟨h1, h2⟩ := hc
  rw [e1] at h1
  rw [e2] at h2
  norm_num at h1 h2
  linarith

/-- C6 amended: in the `coug_controls` variant every `ModemStatus` message
stores `actual_heading = 0.1 * attitude_yaw + magnetic_declination`; in the
`pid_control` variant a status `ModemRec` message (`msg_id = 0x10`) stores
the raw transmitted integer as the heading input, with no one-tenth scaling
and no declination correction (that node declares no declination
parameter). -/
theorem C6_heading_scaling :
    (∀ (s : CougControls.State) (m : ModemStatus),
      CougControls.step s (.modemStatusMsg m) =
        ({ s with actual_heading :=
            (1/10 : ℚ) * (m.attitude_yaw : ℚ) + s.magnetic_declination },
          none)) ∧
    (∀ (cfg : PIDControl.Config) (s : PIDControl.State) (m : ModemRec),
      m.msg_id = 0x10 →
        PIDControl.step cfg s (.modemRecMsg m) =
          ({ s with yaw := (m.attitude_yaw : ℚ) }, none)) := by
  constructor
  · intro s m
    simp [CougControls.step, CougControls.actual_heading_callback]
  · intro cfg s m h
    simp [PIDControl.step, PIDControl.yaw_callback, h]

/-- C6 amended witness: a concrete status message updates the heading input
of each variant as stated. -/
theorem C6_heading_scaling_witness :
    (CougControls.step cstEx (.modemStatusMsg ⟨100⟩) =
      ({ cstEx with actual_heading :=
          (1/10 : ℚ) * ((100 : Int) : ℚ) + cstEx.magnetic_declination },
        none)) ∧
    (ModemRec.msg_id ⟨0x10, 100⟩ = 0x10 ∧
      PIDControl.step pcfgEx pstEx (.modemRecMsg ⟨0x10, 100⟩) =
        ({ pstEx with yaw := ((100 : Int) : ℚ) }, none)) :=
  ⟨C6_heading_scaling.1 cstEx ⟨100⟩,
   rfl, C6_heading_scaling.2 pcfgEx pstEx ⟨0x10, 100⟩ rfl⟩
